import Mathlib

/-
Verification of the Live_Score bridge score updater (update_scores.py).

The script polls an Excel scoresheet, extracts per-board scoring data from
fixed cell positions, detects round completion, writes a JSON snapshot and
optionally pushes it to GitHub.  We shallowly embed the score-processing
core (`load_config`, `process_scoresheet_data`, `generate_blank_scores_file`
and the polling loop of `__main__`) and prove the specification claims
about it.

Modelling conventions:
  * A spreadsheet cell is `Option CellVal`; `none` models a cell value for
    which `pd.isna` holds (a blank cell, which pandas reads as NaN).
    Numeric cells are modelled as integers (`CellVal.int`); text cells as
    strings (`CellVal.str`).
  * `df.iloc[r, c]` is modelled by `iloc`, returning `none` when the
    position is out of bounds (pandas raises `IndexError` there, which the
    enclosing `except Exception` of `process_scoresheet_data` turns into a
    recoverable failure of the whole tick).
  * File-system and network effects are modelled as explicit inputs
    (whether the copy succeeded, whether `pd.read_excel` succeeded,
    whether the `json.dump` write succeeded).
-/

namespace LiveScore

/-- A spreadsheet cell value as pandas reads it: text, or a number
(numeric cells are modelled as integers; a Python float renders with a
trailing fraction under `str`, which never affects blank/non-blank tests). -/
inductive CellVal where
  | str (s : String)
  | int (n : Int)
  deriving DecidableEq, Repr

/-- A cell content: `none` models any value for which `pd.isna` is true
(blank cells read as NaN). -/
abbrev Cell := Option CellVal

/-- A parsed sheet: `pd.read_excel(..., header=None)` as a grid of cells. -/
abbrev Grid := List (List Cell)

/-- Positional access `df.iloc[r, c]`; `none` models the `IndexError`
raised for an out-of-bounds position. -/
def iloc (df : Grid) (r c : Nat) : Option Cell :=
  (df.get? r).bind (fun row => row.get? c)

/-- Python `str(x)` on a cell value. -/
def pyStr : CellVal → String
  | .str s => s
  | .int n => toString n

/-- The characters that the Python method `str.strip` removes: the six ASCII
whitespace characters (Python also strips unicode whitespace; the cell
texts considered here are ASCII). -/
def pyWhitespaceChar (c : Char) : Bool :=
  c = ' ' || c = '\t' || c = '\n' || c = '\r' || c = '\x0b' || c = '\x0c'

/-- Python `s.strip()`: remove leading and trailing whitespace. -/
def pyStrip (s : String) : String :=
  String.mk (((s.data.dropWhile pyWhitespaceChar).reverse.dropWhile
    pyWhitespaceChar).reverse)

/-- Decimal digit accumulation for `int(...)` over a string. -/
def digitsToNat (acc : Nat) : List Char → Option Nat
  | [] => some acc
  | c :: cs =>
    if c.isDigit then digitsToNat (acc * 10 + (c.toNat - 48)) cs else none

/-- Python `int(s)` for a string `s`: surrounding whitespace is allowed,
then an optional sign and a non-empty digit run (digit-group underscores
are not modelled); anything else raises (`none`). -/
def pyIntOfString (s : String) : Option Int :=
  match (pyStrip s).data with
  | [] => none
  | '-' :: cs =>
    if cs = [] then none
    else (digitsToNat 0 cs).map (fun n => -(Int.ofNat n))
  | '+' :: cs =>
    if cs = [] then none
    else (digitsToNat 0 cs).map Int.ofNat
  | cs => (digitsToNat 0 cs).map Int.ofNat

/-- Python `int(x)` on a cell content: `none` models the exception raised
for NaN (`int(nan)` raises `ValueError`) and for text that is not an
integer literal. -/
def pyInt : Cell → Option Int
  | none => none
  | some (.int n) => some n
  | some (.str s) => pyIntOfString s

/-- Line 134/135 of update_scores.py: the open or closed room sub-record
of a board, `{"contract": ..., "scoreNS": ..., "scoreEW": ...}`. -/
structure RoomScore where
  contract : Cell
  scoreNS : Cell
  scoreEW : Cell
  deriving DecidableEq, Repr

/-- Line 136: the `diff` and `imp` sub-records, `{"ns": ..., "ew": ...}`. -/
structure PairNSEW where
  ns : Cell
  ew : Cell
  deriving DecidableEq, Repr

/-- Lines 133-137: one entry of `boards_data`.  The nested cells keep the
source value, with NaN mapped to `None` (here: `none`) by the loop at
lines 138-141; `boardNumber` is forced through `int(...)`, so it is always
an integer when the board is emitted at all. -/
structure BoardScore where
  boardNumber : Int
  openRoom : RoomScore
  closedRoom : RoomScore
  diff : PairNSEW
  imp : PairNSEW
  deriving DecidableEq, Repr

/-- Line 144: the `totals` record. -/
structure Totals where
  impNS : Cell
  impEW : Cell
  resultVP : Cell
  totalIMPFinal : Cell
  finalResult : Cell
  deriving DecidableEq, Repr

/-- Line 145 / line 166: the JSON document written to scores.json. -/
structure Snapshot where
  boards : List BoardScore
  totals : Totals
  deriving DecidableEq, Repr

/-- Line 132/147: `row_index = 9 + (i - 1) * 3` for board `i` (1-based).
For `i = 0` Python would give row 6 while natural subtraction gives 9;
all theorems about the completion row therefore assume at least one
board, as the configuration default of the script (16) guarantees. -/
def boardRow (i : Nat) : Nat := 9 + (i - 1) * 3

/-- Lines 132-141: read the eleven fixed cells of the row of board `i`.  Any
out-of-bounds access or a NaN/non-numeric board-number cell raises in
Python, collapsing the whole tick into the `except Exception` branch:
here the result is `none`.  The NaN-to-None normalisation loop of lines
138-141 is the identity in this model because a NaN cell is already
`none`. -/
def extractBoard (df : Grid) (i : Nat) : Option BoardScore := do
  let bn ← iloc df (boardRow i) 0
  let bnum ← pyInt bn
  let oc ← iloc df (boardRow i) 6
  let ons ← iloc df (boardRow i) 12
  let oew ← iloc df (boardRow i) 15
  let cc ← iloc df (boardRow i) 18
  let cns ← iloc df (boardRow i) 24
  let cew ← iloc df (boardRow i) 27
  let dns ← iloc df (boardRow i) 30
  let dew ← iloc df (boardRow i) 33
  let ins ← iloc df (boardRow i) 36
  let iew ← iloc df (boardRow i) 39
  pure { boardNumber := bnum,
         openRoom := ⟨oc, ons, oew⟩,
         closedRoom := ⟨cc, cns, cew⟩,
         diff := ⟨dns, dew⟩,
         imp := ⟨ins, iew⟩ }

/-- The loop `for i in range(1, boards_to_play + 1)` of line 131, starting
at board `i` with `fuel` iterations left; a failure in any iteration
aborts the whole extraction. -/
def extractFrom (df : Grid) (i : Nat) : Nat → Option (List BoardScore)
  | 0 => some []
  | Nat.succ f => do
      let b ← extractBoard df i
      let rest ← extractFrom df (i + 1) f
      pure (b :: rest)

/-- Lines 130-142: `boards_data` for boards 1..n. -/
def extractBoards (df : Grid) (n : Nat) : Option (List BoardScore) :=
  extractFrom df 1 n

/-- Line 144: totals are a fixed all-null record, never read from the
sheet. -/
def totalsAllNull : Totals := ⟨none, none, none, none, none⟩

/-- Line 150: the truthiness test `pd.notna(x) and str(x).strip()` applied
to one contract cell. -/
def contractTruthy : Cell → Bool
  | none => false
  | some v => !(pyStrip (pyStr v) == "")

/-- Lines 127-151 of `process_scoresheet_data`: parse the sheet, build the
output document and the completion flag.  `none` models any exception
(out-of-bounds cell, non-numeric board number), which the `except` at
line 157 turns into the recoverable `(False, False)` result. -/
def processSheet (df : Grid) (n : Nat) : Option (Snapshot × Bool) := do
  let boards ← extractBoards df n
  let lo ← iloc df (boardRow n) 6
  let lc ← iloc df (boardRow n) 18
  pure ({ boards := boards, totals := totalsAllNull },
        contractTruthy lo && contractTruthy lc)

/-- Lines 118-125: the outcome of `shutil.copy(source, TEMP_EXCEL_PATH)`.
`shutil.copy` is `copyfile` followed by `copymode`; an `IOError` or
`PermissionError` can be raised either before the destination file was
created (for instance the source is locked and cannot be opened) or after
(for instance the device fills up in mid copy, or `copymode` fails on the
already copied destination).  `scratchLeft` records whether the scratch
destination file existed when the exception was raised.  `srcMissing`
models `FileNotFoundError` (raised on opening the source, before the
destination is created). -/
inductive CopyOutcome where
  | ok
  | lockFail (scratchLeft : Bool)
  | srcMissing
  deriving DecidableEq, Repr

/-- How `process_scoresheet_data` ends: a call of the builtin `exit`
(which raises `SystemExit` carrying the process exit status), or a return
of the pair `(was_updated, is_complete)`.  The only `exit()` in the
function, at line 125, turns out to be unreachable (see
`processScoresheetData`), so no reachable branch produces `fatalExit`;
the constructor remains so theorems can state that process termination
does not occur. -/
inductive TickOutcome where
  | fatalExit (status : Int)
  | res (wasUpdated : Bool) (isComplete : Bool)
  deriving DecidableEq, Repr

/-- Observable state after the extraction step: its outcome, whether the
scratch file temp_scores.xls still exists on disk, and the snapshot
written to scores.json this tick (`none` when nothing was written). -/
structure TickState where
  outcome : TickOutcome
  scratchExists : Bool
  written : Option Snapshot
  deriving DecidableEq, Repr

/-- The process exit status produced by the builtin `exit(arg)`: CPython
maps a `SystemExit` argument of `None` to status 0 and an integer
argument to that integer.  Every `exit()` call in update_scores.py
(lines 13, 107, 110, and the unreachable one at 125) passes no
argument. -/
def pyExitStatus : Option Int → Int
  | none => 0
  | some n => n

/-- Lines 112-162, `process_scoresheet_data(boards_to_play, ...)`.
Inputs: the copy outcome; `rd` is the grid delivered by `pd.read_excel`
(`none` when reading raises, for instance on a wrong sheet name); `n` is
`boards_to_play`; `writeOk` is whether the `json.dump` at line 154
succeeds.  Branches:
  * `srcMissing`: in Python 3 `IOError` is an alias of `OSError` and
    `FileNotFoundError` is one of its subclasses, so the handler
    `except (IOError, PermissionError)` at line 120 catches a missing
    source file FIRST and returns `(False, False)`; the
    `except FileNotFoundError` handler with its `exit()` at lines
    123-125 is unreachable dead code.  The scratch file was never
    created (the copy fails on opening the source).
  * `lockFail`: line 120-122, return `(False, False)`.  The `finally` at
    lines 160-162 belongs to the second `try`, so it does NOT run on this
    path, and a partially created scratch file persists.
  * `ok`: the second `try` runs; any exception gives `(False, False)`;
    success gives `(True, is_complete)`.  The `finally` removes the
    scratch file on all of these paths.
No reachable branch produces `TickOutcome.fatalExit`. -/
def processScoresheetData (copy : CopyOutcome) (rd : Option Grid) (n : Nat)
    (writeOk : Bool) : TickState :=
  match copy with
  | .srcMissing => ⟨.res false false, false, none⟩
  | .lockFail left => ⟨.res false false, left, none⟩
  | .ok =>
    match rd with
    | none => ⟨.res false false, false, none⟩
    | some df =>
      match processSheet df n with
      | none => ⟨.res false false, false, none⟩
      | some (snap, complete) =>
        if writeOk then ⟨.res true complete, false, some snap⟩
        else ⟨.res false false, false, none⟩

/-- Lines 164-169, `generate_blank_scores_file`: the blank document
written at startup. -/
def blankScoresData : Snapshot := ⟨[], totalsAllNull⟩

/-- The state of config.json when `load_config` opens it. -/
inductive ConfigFile where
  | missing
  | invalidJson
  | parsed (boards_per_round : Option Int) (eventName : Option String)
      (round : Option CellVal)
  deriving DecidableEq, Repr

/-- How `load_config` ends: a bare `exit()` (process termination with the
given status) or a parsed configuration dictionary. -/
inductive LoadResult where
  | fatalStop (status : Int)
  | ok (boards_per_round : Option Int) (eventName : Option String)
      (round : Option CellVal)
  deriving DecidableEq, Repr

/-- Lines 100-110, `load_config`: `FileNotFoundError` and
`json.JSONDecodeError` both print a FATAL ERROR diagnostic and call the
bare `exit()`. -/
def load_config : ConfigFile → LoadResult
  | .missing => .fatalStop (pyExitStatus none)
  | .invalidJson => .fatalStop (pyExitStatus none)
  | .parsed b e r => .ok b e r

/-- The configuration values after the `config.get(..., default)` calls
of lines 177-179. -/
structure ResolvedConfig where
  boardsPerRound : Int
  eventName : String
  round : CellVal
  deriving DecidableEq, Repr

/-- Lines 177-179: `config.get("boards_per_round", 16)`,
`config.get("eventName", "DefaultEvent")`, `config.get("round", "1")`. -/
def resolveConfig (b : Option Int) (e : Option String) (r : Option CellVal) :
    ResolvedConfig :=
  ⟨b.getD 16, e.getD "DefaultEvent", r.getD (.str "1")⟩

/-- What one iteration of the `while True` loop at lines 220-241 decides:
keep polling (sleep and run another tick) or leave the loop/process with
a process exit status. -/
inductive TickTransition where
  | keepPolling
  | stop (status : Int)
  deriving DecidableEq, Repr

/-- One iteration of the polling loop (lines 220-241).  `interrupted`
models a `KeyboardInterrupt` delivered during the tick (line 236-238:
`break`); `timedOut` models the wall-clock test at line 222 (line 224:
`break`).  Every `break` falls off the end of the script, so the
interpreter exits with status 0; the `fatalExit` arm would terminate the
process with the status `exit()` produced, but no reachable extraction
outcome takes it. -/
def pollTick (interrupted timedOut : Bool) (copy : CopyOutcome)
    (rd : Option Grid) (n : Nat) (writeOk : Bool) : TickTransition :=
  if interrupted then .stop 0
  else if timedOut then .stop 0
  else
    match (processScoresheetData copy rd n writeOk).outcome with
    | .fatalExit s => .stop s
    | .res _ c => if c then .stop 0 else .keepPolling

/-
Serialisation: `json.dump(output_data, f, ensure_ascii=False, indent=4)`
(line 154).  The document shape is fixed, so the renderer is written out
per level; `indent=4` puts each key on its own line, indented four spaces
per depth, with `": "` between key and value and `",\n"` between items.
-/

/-- One hexadecimal digit, lower case, as the `\uXXXX` escapes of Python use. -/
def hexDigitChar (n : Nat) : Char :=
  if n < 10 then Char.ofNat (48 + n) else Char.ofNat (87 + n)

/-- Escaping of one character as the json module performs it with
`ensure_ascii=False`: only the quote, the backslash and control
characters are escaped. -/
def jsonEscapeChar (c : Char) : String :=
  if c = '"' then "\\\""
  else if c = '\\' then "\\\\"
  else if c = '\n' then "\\n"
  else if c = '\t' then "\\t"
  else if c = '\r' then "\\r"
  else if c = '\x08' then "\\b"
  else if c = '\x0c' then "\\f"
  else if c.toNat < 32 then
    "\\u00" ++ String.mk [hexDigitChar (c.toNat / 16), hexDigitChar (c.toNat % 16)]
  else String.singleton c

/-- JSON string escaping. -/
def jsonEscape (s : String) : String :=
  String.join (s.toList.map jsonEscapeChar)

/-- A JSON string literal. -/
def jsonStrLit (s : String) : String := "\"" ++ jsonEscape s ++ "\""

/-- One cell as a JSON scalar: `None` renders as `null`. -/
def cellJson : Cell → String
  | none => "null"
  | some (.int n) => toString n
  | some (.str s) => jsonStrLit s

/-- A run of spaces (indentation). -/
def sp (k : Nat) : String := String.mk (List.replicate k ' ')

/-- A room sub-object, rendered at depth 3. -/
def roomJson (r : RoomScore) : String :=
  "\x7b\n" ++ sp 16 ++ "\"contract\": " ++ cellJson r.contract ++ ",\n"
  ++ sp 16 ++ "\"scoreNS\": " ++ cellJson r.scoreNS ++ ",\n"
  ++ sp 16 ++ "\"scoreEW\": " ++ cellJson r.scoreEW ++ "\n"
  ++ sp 12 ++ "\x7d"

/-- A diff/imp sub-object, rendered at depth 3. -/
def pairJson (p : PairNSEW) : String :=
  "\x7b\n" ++ sp 16 ++ "\"ns\": " ++ cellJson p.ns ++ ",\n"
  ++ sp 16 ++ "\"ew\": " ++ cellJson p.ew ++ "\n"
  ++ sp 12 ++ "\x7d"

/-- One board object, rendered at depth 2. -/
def boardJson (b : BoardScore) : String :=
  "\x7b\n" ++ sp 12 ++ "\"boardNumber\": " ++ toString b.boardNumber ++ ",\n"
  ++ sp 12 ++ "\"openRoom\": " ++ roomJson b.openRoom ++ ",\n"
  ++ sp 12 ++ "\"closedRoom\": " ++ roomJson b.closedRoom ++ ",\n"
  ++ sp 12 ++ "\"diff\": " ++ pairJson b.diff ++ ",\n"
  ++ sp 12 ++ "\"imp\": " ++ pairJson b.imp ++ "\n"
  ++ sp 8 ++ "\x7d"

/-- The boards array, rendered at depth 1; an empty list renders flat. -/
def boardsJson (bs : List BoardScore) : String :=
  match bs with
  | [] => "[]"
  | _ => "[\n"
      ++ String.intercalate ",\n" (bs.map (fun b => sp 8 ++ boardJson b))
      ++ "\n" ++ sp 4 ++ "]"

/-- The totals object, rendered at depth 1. -/
def totalsJson (t : Totals) : String :=
  "\x7b\n" ++ sp 8 ++ "\"impNS\": " ++ cellJson t.impNS ++ ",\n"
  ++ sp 8 ++ "\"impEW\": " ++ cellJson t.impEW ++ ",\n"
  ++ sp 8 ++ "\"resultVP\": " ++ cellJson t.resultVP ++ ",\n"
  ++ sp 8 ++ "\"totalIMPFinal\": " ++ cellJson t.totalIMPFinal ++ ",\n"
  ++ sp 8 ++ "\"finalResult\": " ++ cellJson t.finalResult ++ "\n"
  ++ sp 4 ++ "\x7d"

/-- The full scores.json content for a snapshot. -/
def snapshotJson (s : Snapshot) : String :=
  "\x7b\n" ++ sp 4 ++ "\"boards\": " ++ boardsJson s.boards ++ ",\n"
  ++ sp 4 ++ "\"totals\": " ++ totalsJson s.totals ++ "\n\x7d"

/-
Concrete fixtures used by witnesses and counterexamples.
-/

/-- A 40-column sheet row in the template layout: board number `bn` in
column 0, contracts in columns 6 and 18, a few scores, everything else
blank. -/
def testRow (bn : Cell) : List Cell :=
  (List.range 40).map (fun c =>
    if c = 0 then bn
    else if c = 6 then some (.str "3NT")
    else if c = 12 then some (.int 400)
    else if c = 18 then some (.str "4S")
    else if c = 27 then some (.int 50)
    else if c = 30 then some (.int 350)
    else if c = 36 then some (.int 8)
    else none)

/-- A well-formed one-board sheet: rows 0-8 irrelevant, board 1 at row 9. -/
def fixtureA : Grid := List.replicate 9 [] ++ [testRow (some (.int 1))]

/-- Like `fixtureA` but with the board-number cell of board 1 blank (NaN);
all scoring cells of the row remain populated or in bounds. -/
def fixtureB : Grid := List.replicate 9 [] ++ [testRow none]

/-- The board record extraction produces for board 1 of `fixtureA`. -/
def fixtureABoard : BoardScore :=
  { boardNumber := 1,
    openRoom := ⟨some (.str "3NT"), some (.int 400), none⟩,
    closedRoom := ⟨some (.str "4S"), none, some (.int 50)⟩,
    diff := ⟨some (.int 350), none⟩,
    imp := ⟨some (.int 8), none⟩ }

/-- The snapshot extraction produces over `fixtureA`. -/
def fixtureASnap : Snapshot :=
  { boards := [fixtureABoard], totals := totalsAllNull }

/-
Specification-side predicates.
-/

/-- The reading the specification gives to a contract cell that counts towards
completion: the cell position exists, its value is not NaN, and its text
is non-empty after trimming whitespace. -/
def presentNonBlank (oc : Option Cell) : Prop :=
  ∃ v, oc = some (some v) ∧ pyStrip (pyStr v) ≠ ""

/-- A well-formed fixture row for board `i`: the board-number cell holds
the number `i` and every scoring column of the row is in bounds. -/
def rowPopulated (df : Grid) (i : Nat) : Prop :=
  iloc df (boardRow i) 0 = some (some (.int (Int.ofNat i))) ∧
  ∀ c ∈ ([6, 12, 15, 18, 24, 27, 30, 33, 36, 39] : List Nat),
    (iloc df (boardRow i) c).isSome = true

/-
Helper lemmas about the extraction functions.
-/

theorem contractTruthy_iff (cell : Cell) :
    contractTruthy cell = true ↔ presentNonBlank (some cell) := by
  cases cell with
  | none => simp [contractTruthy, presentNonBlank]
  | some v => simp [contractTruthy, presentNonBlank]

theorem extractBoard_inv (df : Grid) (i : Nat) (b : BoardScore)
    (h : extractBoard df i = some b) :
    (∃ cell, iloc df (boardRow i) 0 = some cell ∧ pyInt cell = some b.boardNumber) ∧
    iloc df (boardRow i) 6 = some b.openRoom.contract ∧
    iloc df (boardRow i) 12 = some b.openRoom.scoreNS ∧
    iloc df (boardRow i) 15 = some b.openRoom.scoreEW ∧
    iloc df (boardRow i) 18 = some b.closedRoom.contract ∧
    iloc df (boardRow i) 24 = some b.closedRoom.scoreNS ∧
    iloc df (boardRow i) 27 = some b.closedRoom.scoreEW ∧
    iloc df (boardRow i) 30 = some b.diff.ns ∧
    iloc df (boardRow i) 33 = some b.diff.ew ∧
    iloc df (boardRow i) 36 = some b.imp.ns ∧
    iloc df (boardRow i) 39 = some b.imp.ew := by
  simp only [extractBoard, Option.bind_eq_bind', Option.bind_eq_some',
    Option.pure_def, Option.some.injEq] at h
  obtain ⟨bn, h0, bnum, hbn, oc, h6, ons, h12, oew, h15, cc, h18, cns, h24,
    cew, h27, dns, h30, dew, h33, ins, h36, iew, h39, hb⟩ := h
  subst hb
  exact ⟨⟨bn, h0, hbn⟩, h6, h12, h15, h18, h24, h27, h30, h33, h36, h39⟩

theorem extractBoard_eq (df : Grid) (i : Nat) (bn : Cell) (bnum : Int)
    (oc ons oew cc cns cew dns dew ins iew : Cell)
    (h0 : iloc df (boardRow i) 0 = some bn) (hbn : pyInt bn = some bnum)
    (h6 : iloc df (boardRow i) 6 = some oc)
    (h12 : iloc df (boardRow i) 12 = some ons)
    (h15 : iloc df (boardRow i) 15 = some oew)
    (h18 : iloc df (boardRow i) 18 = some cc)
    (h24 : iloc df (boardRow i) 24 = some cns)
    (h27 : iloc df (boardRow i) 27 = some cew)
    (h30 : iloc df (boardRow i) 30 = some dns)
    (h33 : iloc df (boardRow i) 33 = some dew)
    (h36 : iloc df (boardRow i) 36 = some ins)
    (h39 : iloc df (boardRow i) 39 = some iew) :
    extractBoard df i =
      some ⟨bnum, ⟨oc, ons, oew⟩, ⟨cc, cns, cew⟩, ⟨dns, dew⟩, ⟨ins, iew⟩⟩ := by
  simp [extractBoard, Option.bind_eq_bind', h0, hbn, h6, h12, h15, h18, h24,
    h27, h30, h33, h36, h39]

theorem extractBoard_of_populated (df : Grid) (i : Nat) (h : rowPopulated df i) :
    ∃ b, extractBoard df i = some b ∧ b.boardNumber = Int.ofNat i := by
  obtain ⟨h0, hcols⟩ := h
  obtain ⟨oc, h6⟩ := Option.isSome_iff_exists.mp (hcols 6 (by simp))
  obtain ⟨ons, h12⟩ := Option.isSome_iff_exists.mp (hcols 12 (by simp))
  obtain ⟨oew, h15⟩ := Option.isSome_iff_exists.mp (hcols 15 (by simp))
  obtain ⟨cc, h18⟩ := Option.isSome_iff_exists.mp (hcols 18 (by simp))
  obtain ⟨cns, h24⟩ := Option.isSome_iff_exists.mp (hcols 24 (by simp))
  obtain ⟨cew, h27⟩ := Option.isSome_iff_exists.mp (hcols 27 (by simp))
  obtain ⟨dns, h30⟩ := Option.isSome_iff_exists.mp (hcols 30 (by simp))
  obtain ⟨dew, h33⟩ := Option.isSome_iff_exists.mp (hcols 33 (by simp))
  obtain ⟨ins, h36⟩ := Option.isSome_iff_exists.mp (hcols 36 (by simp))
  obtain ⟨iew, h39⟩ := Option.isSome_iff_exists.mp (hcols 39 (by simp))
  exact ⟨_, extractBoard_eq df i _ _ oc ons oew cc cns cew dns dew ins iew
    h0 rfl h6 h12 h15 h18 h24 h27 h30 h33 h36 h39, rfl⟩

theorem extractFrom_spec (df : Grid) (fuel : Nat) :
    ∀ (i : Nat) (l : List BoardScore), extractFrom df i fuel = some l →
      l.length = fuel ∧
      ∀ k, k < fuel → ∃ b, l.get? k = some b ∧ extractBoard df (i + k) = some b := by
  induction fuel with
  | zero =>
    intro i l h
    simp only [extractFrom, Option.some.injEq] at h
    subst h
    exact ⟨rfl, fun k hk => absurd hk (Nat.not_lt_zero k)⟩
  | succ f ih =>
    intro i l h
    simp only [extractFrom, Option.bind_eq_bind', Option.bind_eq_some',
      Option.pure_def, Option.some.injEq] at h
    obtain ⟨b, hb, rest, hrest, hl⟩ := h
    subst hl
    obtain ⟨hlen, hk⟩ := ih (i + 1) rest hrest
    refine ⟨by simp [hlen], ?_⟩
    intro k hklt
    cases k with
    | zero => exact ⟨b, rfl, by simpa using hb⟩
    | succ k2 =>
      obtain ⟨b2, hget, hextract⟩ := hk k2 (by omega)
      refine ⟨b2, by simpa using hget, ?_⟩
      have harith : i + 1 + k2 = i + (k2 + 1) := by omega
      rwa [harith] at hextract

theorem extractFrom_populated (df : Grid) (fuel : Nat) :
    ∀ i : Nat, (∀ j, i ≤ j → j < i + fuel → rowPopulated df j) →
      ∃ l, extractFrom df i fuel = some l ∧ l.length = fuel ∧
        ∀ k, k < fuel → ∃ b, l.get? k = some b ∧ b.boardNumber = Int.ofNat (i + k) := by
  induction fuel with
  | zero =>
    intro i _
    exact ⟨[], rfl, rfl, fun k hk => absurd hk (Nat.not_lt_zero k)⟩
  | succ f ih =>
    intro i hp
    obtain ⟨b, hb, hbn⟩ := extractBoard_of_populated df i (hp i le_rfl (by omega))
    obtain ⟨l, hl, hlen, hnum⟩ := ih (i + 1) (fun j hj1 hj2 => hp j (by omega) (by omega))
    refine ⟨b :: l, by simp [extractFrom, Option.bind_eq_bind', hb, hl], by simp [hlen], ?_⟩
    intro k hklt
    cases k with
    | zero => exact ⟨b, rfl, by simpa using hbn⟩
    | succ k2 =>
      obtain ⟨b2, hget, hb2⟩ := hnum k2 (by omega)
      refine ⟨b2, by simpa using hget, ?_⟩
      rw [hb2]
      congr 1
      omega

theorem processSheet_inv (df : Grid) (n : Nat) (snap : Snapshot) (c : Bool)
    (h : processSheet df n = some (snap, c)) :
    ∃ l lo lc, extractBoards df n = some l ∧
      iloc df (boardRow n) 6 = some lo ∧ iloc df (boardRow n) 18 = some lc ∧
      snap = ⟨l, totalsAllNull⟩ ∧ c = (contractTruthy lo && contractTruthy lc) := by
  simp only [processSheet, Option.bind_eq_bind', Option.bind_eq_some',
    Option.pure_def, Option.some.injEq, Prod.mk.injEq] at h
  obtain ⟨l, hl, lo, hlo, lc, hlc, hsnap, hc⟩ := h
  exact ⟨l, lo, lc, hl, hlo, hlc, hsnap.symm, hc.symm⟩

theorem processSheet_eq (df : Grid) (n : Nat) (l : List BoardScore) (lo lc : Cell)
    (hl : extractBoards df n = some l)
    (hlo : iloc df (boardRow n) 6 = some lo)
    (hlc : iloc df (boardRow n) 18 = some lc) :
    processSheet df n =
      some (⟨l, totalsAllNull⟩, contractTruthy lo && contractTruthy lc) := by
  simp [processSheet, Option.bind_eq_bind', hl, hlo, hlc]

/-
Claim theorems.
-/

/-- C1: for every extraction over a parseable sheet, the returned
isComplete flag is true if and only if both the open-room contract cell
(column 6) and the closed-room contract cell (column 18) of the last
last board row (row `9 + (boardsPerRound - 1) * 3`, which is
`boardRow boardsPerRound`) are present and non-empty after trimming
whitespace; it is false if either cell is missing, empty, or
whitespace-only. -/
theorem isComplete_iff_last_contract_cells_nonblank
    (df : Grid) (n : Nat) (snap : Snapshot) (c : Bool) (_hn : 1 ≤ n)
    (h : processSheet df n = some (snap, c)) :
    c = true ↔
      presentNonBlank (iloc df (boardRow n) 6) ∧
      presentNonBlank (iloc df (boardRow n) 18) := by
  obtain ⟨l, lo, lc, hl, hlo, hlc, hsnap, hc⟩ := processSheet_inv df n snap c h
  subst hc
  rw [hlo, hlc]
  simp only [Bool.and_eq_true, contractTruthy_iff]

theorem isComplete_iff_last_contract_cells_nonblank_witness :
    1 ≤ 1 ∧ processSheet fixtureA 1 = some (fixtureASnap, true) ∧
    (true = true ↔
      presentNonBlank (iloc fixtureA (boardRow 1) 6) ∧
      presentNonBlank (iloc fixtureA (boardRow 1) 18)) :=
  ⟨le_rfl, by decide,
   isComplete_iff_last_contract_cells_nonblank fixtureA 1 fixtureASnap true
     le_rfl (by decide)⟩

/-- C2 counterexample: in `fixtureB` the board-number source cell of
board 1 is blank (NaN) while every other cell of the row is intact, yet
the extraction emits no BoardScore at all — `int(nan)` raises, the whole
tick fails recoverably with `(False, False)`, and no key is mapped to
null.  The claim "the corresponding key in the emitted BoardScore is
present with value null" is therefore false for the boardNumber cell. -/
theorem empty_boardNumber_cell_aborts_extraction :
    iloc fixtureB (boardRow 1) 0 = some none ∧
    (iloc fixtureB (boardRow 1) 6).isSome = true ∧
    (iloc fixtureB (boardRow 1) 18).isSome = true ∧
    processSheet fixtureB 1 = none ∧
    processScoresheetData .ok (some fixtureB) 1 true =
      ⟨.res false false, false, none⟩ :=
  ⟨by decide, by decide, by decide, by decide, by decide⟩

/-- C2 (amended): in every emitted BoardScore each nested key (open and
closed room contract and scores, diff, imp) is present and holds exactly
the source cell content, an empty or NaN cell giving null — never 0,
never the empty string, never omission; the boardNumber source cell, by
contrast, is necessarily present and parseable in every emitted board,
because a blank or unparseable board-number cell aborts the whole
extraction as a recoverable per-tick failure instead of emitting null. -/
theorem nested_cells_map_to_null (df : Grid) (n : Nat) (snap : Snapshot)
    (c : Bool) (k : Nat) (b : BoardScore)
    (h : processSheet df n = some (snap, c))
    (hk : snap.boards.get? k = some b) :
    iloc df (boardRow (k + 1)) 6 = some b.openRoom.contract ∧
    iloc df (boardRow (k + 1)) 12 = some b.openRoom.scoreNS ∧
    iloc df (boardRow (k + 1)) 15 = some b.openRoom.scoreEW ∧
    iloc df (boardRow (k + 1)) 18 = some b.closedRoom.contract ∧
    iloc df (boardRow (k + 1)) 24 = some b.closedRoom.scoreNS ∧
    iloc df (boardRow (k + 1)) 27 = some b.closedRoom.scoreEW ∧
    iloc df (boardRow (k + 1)) 30 = some b.diff.ns ∧
    iloc df (boardRow (k + 1)) 33 = some b.diff.ew ∧
    iloc df (boardRow (k + 1)) 36 = some b.imp.ns ∧
    iloc df (boardRow (k + 1)) 39 = some b.imp.ew ∧
    (∃ cell, iloc df (boardRow (k + 1)) 0 = some cell ∧ cell ≠ none ∧
      pyInt cell = some b.boardNumber) := by
  obtain ⟨l, lo, lc, hl, hlo, hlc, hsnap, hc⟩ := processSheet_inv df n snap c h
  subst hsnap
  obtain ⟨hlen, hspec⟩ := extractFrom_spec df n 1 l hl
  have hkl : k < l.length := by
    obtain ⟨hlt, _⟩ := List.get?_eq_some.mp hk
    exact hlt
  obtain ⟨b2, hget2, hext⟩ := hspec k (by omega)
  rw [hk] at hget2
  have hb2 : b2 = b := by
    injection hget2 with h2
    exact h2.symm
  subst hb2
  have harith : 1 + k = k + 1 := by omega
  rw [harith] at hext
  obtain ⟨⟨cell, hcell, hpy⟩, h6, h12, h15, h18, h24, h27, h30, h33, h36, h39⟩ :=
    extractBoard_inv df (k + 1) b2 hext
  refine ⟨h6, h12, h15, h18, h24, h27, h30, h33, h36, h39, cell, hcell, ?_, hpy⟩
  intro hnone
  subst hnone
  simp [pyInt] at hpy

theorem nested_cells_map_to_null_witness :
    processSheet fixtureA 1 = some (fixtureASnap, true) ∧
    fixtureASnap.boards.get? 0 = some fixtureABoard ∧
    (iloc fixtureA (boardRow 1) 6 = some fixtureABoard.openRoom.contract ∧
     iloc fixtureA (boardRow 1) 12 = some fixtureABoard.openRoom.scoreNS ∧
     iloc fixtureA (boardRow 1) 15 = some fixtureABoard.openRoom.scoreEW ∧
     iloc fixtureA (boardRow 1) 18 = some fixtureABoard.closedRoom.contract ∧
     iloc fixtureA (boardRow 1) 24 = some fixtureABoard.closedRoom.scoreNS ∧
     iloc fixtureA (boardRow 1) 27 = some fixtureABoard.closedRoom.scoreEW ∧
     iloc fixtureA (boardRow 1) 30 = some fixtureABoard.diff.ns ∧
     iloc fixtureA (boardRow 1) 33 = some fixtureABoard.diff.ew ∧
     iloc fixtureA (boardRow 1) 36 = some fixtureABoard.imp.ns ∧
     iloc fixtureA (boardRow 1) 39 = some fixtureABoard.imp.ew ∧
     (∃ cell, iloc fixtureA (boardRow 1) 0 = some cell ∧ cell ≠ none ∧
       pyInt cell = some fixtureABoard.boardNumber)) :=
  ⟨by decide, rfl,
   nested_cells_map_to_null fixtureA 1 fixtureASnap true 0 fixtureABoard
     (by decide) rfl⟩

/-- C3 (code-bug evidence): a copy failure caused by locking or
permissions returns the recoverable `(False, False)` result without
terminating the process, as the claim says; but a copy failure caused by
the source file being absent does exactly the same — in Python 3
`IOError` is an alias of `OSError` and `FileNotFoundError` is a subclass
of it, so the `except (IOError, PermissionError)` handler at line 120
catches the missing source first, and the fatal `exit()` handler at
lines 123-125 is unreachable.  The process never terminates on a missing
source, contrary to the fatal half of the claim. -/
theorem missing_source_recoverable_not_fatal (left : Bool) (rd : Option Grid)
    (n : Nat) (w : Bool) :
    (processScoresheetData (.lockFail left) rd n w).outcome = .res false false ∧
    processScoresheetData .srcMissing rd n w =
      ⟨.res false false, false, none⟩ ∧
    (∀ s, (processScoresheetData .srcMissing rd n w).outcome ≠ .fatalExit s) :=
  ⟨rfl, rfl, fun _ h => TickOutcome.noConfusion h⟩

/-- C4 (code-bug evidence): every graceful stop of the polling loop —
operator interrupt, wall-clock timeout, round completion — leaves the
process with exit status 0, as the claim says; but neither fatal startup
error exits non-zero.  A missing or invalid config.json reaches a bare
`exit()`, and CPython maps `SystemExit(None)` to exit status 0; a source
spreadsheet missing at first read does not terminate the process at all
(the `FileNotFoundError` is swallowed by the line-120 handler, the tick
is skipped, and polling keeps going until the wall-clock timeout, which
then also exits 0).  The non-zero half of the claim is therefore false
of the code. -/
theorem fatal_and_graceful_paths_exit_status_zero :
    load_config .missing = .fatalStop 0 ∧
    load_config .invalidJson = .fatalStop 0 ∧
    (∀ rd n w, pollTick false false .srcMissing rd n w = .keepPolling) ∧
    (∀ copy rd n w, pollTick true false copy rd n w = .stop 0) ∧
    (∀ copy rd n w, pollTick false true copy rd n w = .stop 0) ∧
    pollTick false false .ok (some fixtureA) 1 true = .stop 0 :=
  ⟨rfl, rfl, fun _ _ _ => rfl, fun _ _ _ _ => rfl, fun _ _ _ _ => rfl,
   by decide⟩

/-- C5: for every boardsPerRound `n ≥ 1` and every well-formed source
fixture (each board `i` in 1..n has its row populated with board number
`i` at row `9 + (i - 1) * 3`, column 0, and all scoring columns in
bounds), extraction succeeds and produces a snapshot whose boards list
has exactly `n` entries whose boardNumber fields are 1..n in ascending
order. -/
theorem wellformed_extraction_board_numbers (df : Grid) (n : Nat)
    (h1 : 1 ≤ n) (hp : ∀ i, 1 ≤ i → i ≤ n → rowPopulated df i) :
    ∃ snap c, processSheet df n = some (snap, c) ∧
      snap.boards.length = n ∧
      ∀ k, k < n → ∃ b, snap.boards.get? k = some b ∧
        b.boardNumber = Int.ofNat (k + 1) := by
  obtain ⟨l, hl, hlen, hnum⟩ :=
    extractFrom_populated df n 1 (fun j hj1 hj2 => hp j hj1 (by omega))
  have hpn := hp n h1 le_rfl
  obtain ⟨lo, hlo⟩ := Option.isSome_iff_exists.mp (hpn.2 6 (by simp))
  obtain ⟨lc, hlc⟩ := Option.isSome_iff_exists.mp (hpn.2 18 (by simp))
  refine ⟨_, _, processSheet_eq df n l lo lc hl hlo hlc, by simpa using hlen, ?_⟩
  intro k hk
  obtain ⟨b, hget, hbn⟩ := hnum k hk
  refine ⟨b, hget, ?_⟩
  rw [hbn]
  congr 1
  omega

theorem wellformed_extraction_board_numbers_witness :
    1 ≤ 1 ∧ (∀ i, 1 ≤ i → i ≤ 1 → rowPopulated fixtureA i) ∧
    (∃ snap c, processSheet fixtureA 1 = some (snap, c) ∧
      snap.boards.length = 1 ∧
      ∀ k, k < 1 → ∃ b, snap.boards.get? k = some b ∧
        b.boardNumber = Int.ofNat (k + 1)) := by
  have hp : ∀ i, 1 ≤ i → i ≤ 1 → rowPopulated fixtureA i := by
    intro i hi1 hi2
    have hi : i = 1 := le_antisymm hi2 hi1
    subst hi
    exact ⟨by decide, by decide⟩
  exact ⟨le_rfl, hp, wellformed_extraction_board_numbers fixtureA 1 le_rfl hp⟩

/-- C6 counterexample: a copy failure that occurs after the scratch file
was created (for instance the device fills up in mid copy, an `IOError`)
returns the recoverable `(False, False)` result while the scratch file
persists on disk — the cleanup `finally` of lines 160-162 belongs to the
second `try` and is skipped by the `return` of the copy-failure handler
at line 122. -/
theorem scratch_persists_on_partial_copy_failure :
    (processScoresheetData (.lockFail true) (some fixtureA) 1 true).outcome =
      .res false false ∧
    (processScoresheetData (.lockFail true) (some fixtureA) 1 true).scratchExists =
      true :=
  ⟨rfl, rfl⟩

/-- C6 (amended): after a successful extraction and after every
recoverable parse or write failure the scratch file does not exist; after
a copy failure the scratch file is absent only when the copy failed
before creating it — the cleanup step is skipped on the copy-failure
path, so a partially created scratch file persists. -/
theorem scratch_removed_after_processing (rd : Option Grid) (n : Nat)
    (w : Bool) :
    (processScoresheetData .ok rd n w).scratchExists = false ∧
    (processScoresheetData (.lockFail false) rd n w).scratchExists = false ∧
    (processScoresheetData .srcMissing rd n w).scratchExists = false := by
  refine ⟨?_, rfl, rfl⟩
  cases rd with
  | none => rfl
  | some df =>
    cases hps : processSheet df n with
    | none => simp [processScoresheetData, hps]
    | some p =>
      obtain ⟨snap, c⟩ := p
      cases w <;> simp [processScoresheetData, hps]

/-- C7: config loading never returns on a missing configuration file or
invalid JSON (the process terminates), and on a successfully parsed
configuration every missing optional key falls back to its documented
default: boards per round 16, round "1", event name "DefaultEvent". -/
theorem config_fatal_and_defaults :
    (∃ s, load_config .missing = .fatalStop s) ∧
    (∃ s, load_config .invalidJson = .fatalStop s) ∧
    (∀ e r, (resolveConfig none e r).boardsPerRound = 16) ∧
    (∀ b r, (resolveConfig b none r).eventName = "DefaultEvent") ∧
    (∀ b e, (resolveConfig b e none).round = .str "1") :=
  ⟨⟨0, rfl⟩, ⟨0, rfl⟩, fun _ _ => rfl, fun _ _ => rfl, fun _ _ => rfl⟩

/-- C8: extraction is deterministic in its input — two runs over the same
grid with the same boardsPerRound yield the same snapshot, hence
byte-identical serialised scores.json content, and the same completion
flag. -/
theorem extraction_deterministic (df : Grid) (n : Nat) (s1 s2 : Snapshot)
    (c1 c2 : Bool) (h1 : processSheet df n = some (s1, c1))
    (h2 : processSheet df n = some (s2, c2)) :
    snapshotJson s1 = snapshotJson s2 ∧ c1 = c2 := by
  rw [h1] at h2
  simp only [Option.some.injEq, Prod.mk.injEq] at h2
  exact ⟨by rw [h2.1], h2.2⟩

theorem extraction_deterministic_witness :
    processSheet fixtureA 1 = some (fixtureASnap, true) ∧
    (snapshotJson fixtureASnap = snapshotJson fixtureASnap ∧ true = true) :=
  ⟨by decide,
   extraction_deterministic fixtureA 1 fixtureASnap fixtureASnap true true
     (by decide) (by decide)⟩

/-- C9: the extraction step only ever signals completion on a tick whose
snapshot was successfully written: an outcome `(was_updated, True)`
forces `was_updated = True` and a written snapshot, and every path that
writes nothing ends in `exit()` or in the `(False, False)` result. -/
theorem complete_implies_updated (copy : CopyOutcome) (rd : Option Grid)
    (n : Nat) (w : Bool) :
    (∀ u, (processScoresheetData copy rd n w).outcome = .res u true →
      u = true ∧ ∃ s, (processScoresheetData copy rd n w).written = some s) ∧
    ((processScoresheetData copy rd n w).written = none →
      (processScoresheetData copy rd n w).outcome = .fatalExit 0 ∨
      (processScoresheetData copy rd n w).outcome = .res false false) := by
  cases copy with
  | srcMissing =>
    exact ⟨fun u h => by simp [processScoresheetData] at h,
      fun _ => Or.inr rfl⟩
  | lockFail left =>
    exact ⟨fun u h => by simp [processScoresheetData] at h,
      fun _ => Or.inr rfl⟩
  | ok =>
    cases rd with
    | none =>
      exact ⟨fun u h => by simp [processScoresheetData] at h,
        fun _ => Or.inr rfl⟩
    | some df =>
      cases hps : processSheet df n with
      | none =>
        refine ⟨fun u h => ?_, fun _ => Or.inr ?_⟩ <;>
          simp [processScoresheetData, hps] at *
      | some p =>
        obtain ⟨snap, c⟩ := p
        have heq : processScoresheetData .ok (some df) n w =
            if w then ⟨.res true c, false, some snap⟩
            else ⟨.res false false, false, none⟩ := by
          simp [processScoresheetData, hps]
        cases w with
        | false =>
          refine ⟨fun u h => ?_, fun _ => Or.inr ?_⟩ <;>
            simp [heq] at *
        | true =>
          simp only [if_true] at heq
          refine ⟨fun u h => ?_, fun hw => ?_⟩
          · rw [heq] at h
            simp only [TickOutcome.res.injEq] at h
            exact ⟨h.1.symm, snap, by rw [heq]⟩
          · rw [heq] at hw
            simp at hw

theorem complete_implies_updated_witness :
    (processScoresheetData .ok (some fixtureA) 1 true).outcome = .res true true ∧
    (true = true ∧
      ∃ s, (processScoresheetData .ok (some fixtureA) 1 true).written = some s) ∧
    (processScoresheetData (.lockFail false) (some fixtureA) 1 true).written = none ∧
    ((processScoresheetData (.lockFail false) (some fixtureA) 1 true).outcome =
        .fatalExit 0 ∨
      (processScoresheetData (.lockFail false) (some fixtureA) 1 true).outcome =
        .res false false) :=
  ⟨by decide,
   (complete_implies_updated .ok (some fixtureA) 1 true).1 true (by decide),
   rfl,
   (complete_implies_updated (.lockFail false) (some fixtureA) 1 true).2 rfl⟩

/-- C10: every snapshot the program ever writes — the startup blank
snapshot and every per-tick extracted snapshot — has a totals object
equal to the fixed all-null record; totals are never extracted from the
spreadsheet. -/
theorem totals_always_all_null :
    (∀ copy rd n w s, (processScoresheetData copy rd n w).written = some s →
      s.totals = ⟨none, none, none, none, none⟩) ∧
    blankScoresData.totals = ⟨none, none, none, none, none⟩ := by
  refine ⟨?_, rfl⟩
  intro copy rd n w s h
  cases copy with
  | srcMissing => simp [processScoresheetData] at h
  | lockFail left => simp [processScoresheetData] at h
  | ok =>
    cases rd with
    | none => simp [processScoresheetData] at h
    | some df =>
      cases hps : processSheet df n with
      | none => simp [processScoresheetData, hps] at h
      | some p =>
        obtain ⟨snap, c⟩ := p
        obtain ⟨l, lo, lc, hl, hlo, hlc, hsnap, hc⟩ :=
          processSheet_inv df n snap c hps
        cases w with
        | false => simp [processScoresheetData, hps] at h
        | true =>
          simp only [processScoresheetData, hps, if_true] at h
          rw [Option.some.injEq] at h
          rw [← h, hsnap]
          rfl

theorem totals_always_all_null_witness :
    (processScoresheetData .ok (some fixtureA) 1 true).written =
      some fixtureASnap ∧
    fixtureASnap.totals = ⟨none, none, none, none, none⟩ :=
  ⟨by decide,
   totals_always_all_null.1 .ok (some fixtureA) 1 true fixtureASnap (by decide)⟩

end LiveScore
